import Mathlib

/-!
Verification of the ChatSG `python-mem0` memory service
(`src/backend/python-mem0/src/mem0_service.py` and `config.py`).

The service wraps a third-party memory library (`mem0.Memory`).  We embed the
service's code shallowly: Python dynamic values are modelled by `PyVal`, the
wrapped library by a record of (possibly failing) functions `Mem0Lib`, and
each service operation becomes a total Lean function whose outcome
structure mirrors the Python `try/except` blocks.
-/

namespace ChatSG

/-- Python dynamic values as they occur in the service's data flow: strings,
integers, `None`, lists and string-keyed dicts.  The float literal `1.0` that
the source writes as a relevance score is modelled by the integer one (no claim
inspects the numeric value). -/
inductive PyVal where
  | pyNone : PyVal
  | pyStr : String → PyVal
  | pyInt : Int → PyVal
  | pyList : List PyVal → PyVal
  | pyDict : List (String × PyVal) → PyVal
  deriving Repr

mutual

/-- Decidable equality on `PyVal` (the derive handler does not support the
nested occurrence of `List`). -/
def PyVal.decEq : (a b : PyVal) → Decidable (a = b)
  | .pyNone, .pyNone => isTrue rfl
  | .pyStr s, .pyStr t =>
    match String.decEq s t with
    | isTrue h => isTrue (by rw [h])
    | isFalse h => isFalse (by intro hh; cases hh; exact h rfl)
  | .pyInt m, .pyInt n =>
    match Int.decEq m n with
    | isTrue h => isTrue (by rw [h])
    | isFalse h => isFalse (by intro hh; cases hh; exact h rfl)
  | .pyList l, .pyList m =>
    match PyVal.decEqList l m with
    | isTrue h => isTrue (by rw [h])
    | isFalse h => isFalse (by intro hh; cases hh; exact h rfl)
  | .pyDict d, .pyDict e =>
    match PyVal.decEqDict d e with
    | isTrue h => isTrue (by rw [h])
    | isFalse h => isFalse (by intro hh; cases hh; exact h rfl)
  | .pyNone, .pyStr _ | .pyNone, .pyInt _ | .pyNone, .pyList _ | .pyNone, .pyDict _
  | .pyStr _, .pyNone | .pyStr _, .pyInt _ | .pyStr _, .pyList _ | .pyStr _, .pyDict _
  | .pyInt _, .pyNone | .pyInt _, .pyStr _ | .pyInt _, .pyList _ | .pyInt _, .pyDict _
  | .pyList _, .pyNone | .pyList _, .pyStr _ | .pyList _, .pyInt _ | .pyList _, .pyDict _
  | .pyDict _, .pyNone | .pyDict _, .pyStr _ | .pyDict _, .pyInt _ | .pyDict _, .pyList _ =>
    isFalse (by intro h; cases h)

/-- Decidable equality on lists of `PyVal`. -/
def PyVal.decEqList : (l m : List PyVal) → Decidable (l = m)
  | [], [] => isTrue rfl
  | [], _ :: _ => isFalse (by intro h; cases h)
  | _ :: _, [] => isFalse (by intro h; cases h)
  | a :: l, b :: m =>
    match PyVal.decEq a b with
    | isTrue h1 =>
      match PyVal.decEqList l m with
      | isTrue h2 => isTrue (by rw [h1, h2])
      | isFalse h2 => isFalse (by intro hh; cases hh; exact h2 rfl)
    | isFalse h1 => isFalse (by intro hh; cases hh; exact h1 rfl)

/-- Decidable equality on string-keyed assoc lists of `PyVal`. -/
def PyVal.decEqDict : (d e : List (String × PyVal)) → Decidable (d = e)
  | [], [] => isTrue rfl
  | [], _ :: _ => isFalse (by intro h; cases h)
  | _ :: _, [] => isFalse (by intro h; cases h)
  | (k, a) :: d, (k', b) :: e =>
    match String.decEq k k' with
    | isTrue hk =>
      match PyVal.decEq a b with
      | isTrue h1 =>
        match PyVal.decEqDict d e with
        | isTrue h2 => isTrue (by rw [hk, h1, h2])
        | isFalse h2 => isFalse (by intro hh; cases hh; exact h2 rfl)
      | isFalse h1 => isFalse (by intro hh; cases hh; exact h1 rfl)
    | isFalse hk => isFalse (by intro hh; cases hh; exact hk rfl)

end

instance : DecidableEq PyVal := PyVal.decEq

/-- Python `d.get(k)`: first value bound to `k`, or `none` if the key is
absent (Python returns `None`; the caller sites below supply defaults). -/
def dictGet (k : String) : List (String × PyVal) → Option PyVal
  | [] => none
  | (k', v) :: rest => if k' = k then some v else dictGet k rest

/-- Python truthiness restricted to the modelled values. -/
def pyTruthy : PyVal → Bool
  | .pyNone => false
  | .pyStr s => s != ""
  | .pyInt n => n != 0
  | .pyList l => !l.isEmpty
  | .pyDict d => !d.isEmpty

mutual

/-- Python `repr()` on the modelled values (string escaping inside reprs is
approximated by plain quoting; no claim exercises it). -/
def pyReprOf : PyVal → String
  | .pyNone => "None"
  | .pyStr s => "\x27" ++ s ++ "\x27"
  | .pyInt n => toString n
  | .pyList l => "[" ++ String.intercalate ", " (reprElems l) ++ "]"
  | .pyDict d => "\x7b" ++ String.intercalate ", " (reprPairs d) ++ "\x7d"

/-- Reprs of the elements of a Python list. -/
def reprElems : List PyVal → List String
  | [] => []
  | v :: r => pyReprOf v :: reprElems r

/-- Reprs of the key/value pairs of a Python dict. -/
def reprPairs : List (String × PyVal) → List String
  | [] => []
  | (k, v) :: r => ("\x27" ++ k ++ "\x27: " ++ pyReprOf v) :: reprPairs r

end

/-- Python `str()`: strings unchanged, everything else its repr (ints and
`None` print the same either way). -/
def pyStrOf : PyVal → String
  | .pyStr s => s
  | v => pyReprOf v

/-- `str(user_id) if user_id else "default"` — the expression every operation
uses to turn its optional integer `user_id` into the library user key.  Note
the Python truthiness test: `0` falls to `"default"` just like `None`. -/
def userIdStr : Option Int → String
  | some u => if u != 0 then toString u else "default"
  | none => "default"

/-- One converted chat message (`{"role": ..., "content": ...}`) as built by
`add_messages`. -/
structure ChatMsg where
  role : String
  content : PyVal
  deriving Repr, DecidableEq

/-- The wrapped `mem0.Memory` handle: each method takes the arguments the
service passes and either returns a raw Python value or raises (modelled by
`Except.error` carrying the exception message).
`search` receives query, user key, limit and the optional session filter;
`getAll` receives user key and limit; `delete` receives the raw id value. -/
structure Mem0Lib where
  add : List ChatMsg → String → List (String × String) → Except String PyVal
  search : String → String → Int → Option String → Except String PyVal
  getAll : String → Int → Except String PyVal
  delete : PyVal → Except String Unit

/-- Outcome of `add_messages`: `{"success": ..., "results": ...}` with an
`"error"` key only in the failure case (modelled by `Option`). -/
structure AddOutcome where
  success : Bool
  error : Option String
  results : PyVal
  deriving Repr, DecidableEq

/-- Outcome of `search`: `{"success": ..., "results": [...]}` with `"error"`
only on failure. -/
structure SearchOutcome where
  success : Bool
  error : Option String
  results : List PyVal
  deriving Repr, DecidableEq

/-- Outcome of `delete_session_memories`. -/
structure DeleteOutcome where
  success : Bool
  error : Option String
  deleted_count : Nat
  deriving Repr, DecidableEq

/-- One context entry built by `get_context_for_query`. -/
structure CtxMsg where
  role : String
  content : String
  deriving Repr, DecidableEq

/-- The per-message conversion in `add_messages`:
`role = "user" if msg.get("type") == "user" else "assistant"`,
`content = msg.get("content", "")`. -/
def convertMessage (m : List (String × PyVal)) : ChatMsg :=
  { role := if dictGet "type" m = some (.pyStr "user") then "user" else "assistant"
    content := (dictGet "content" m).getD (.pyStr "") }

/-- `Mem0Service.add_messages` (body of the `try` block; any library exception
is caught and became the failure outcome). -/
def add_messages (lib : Mem0Lib) (messages : List (List (String × PyVal)))
    (session_id : String) (user_id : Option Int) : AddOutcome :=
  let mem0Messages := messages.map convertMessage
  let metadata := [("session_id", session_id), ("user_id", userIdStr user_id)]
  match lib.add mem0Messages (userIdStr user_id) metadata with
  | .ok r => { success := true, error := none, results := r }
  | .error e => { success := false, error := some e, results := .pyList [] }

/-- `if session_id:` — the session filter is only attached when the optional
argument is truthy (a non-empty string). -/
def sessionFilter : Option String → Option String
  | some s => if s != "" then some s else none
  | none => none

/-- Shape handling in `search`: a dict yields `results.get("results", [])`, a
list is used directly, anything else yields `[]`.  (A dict whose `"results"`
value is not a list is outside the shapes the service is written against and
is modelled as the empty extraction.) -/
def extractSearchResults : PyVal → List PyVal
  | .pyDict d =>
    match dictGet "results" d with
    | some (.pyList l) => l
    | _ => []
  | .pyList l => l
  | _ => []

/-- The normalization loop of `search`: dict entries pass through unchanged, a
string at (input) index `idx` is wrapped as
`{"id": str(idx), "memory": s, "score": 1.0}`, anything else is dropped. -/
def normalizeFrom : Nat → List PyVal → List PyVal
  | _, [] => []
  | idx, .pyDict d :: rest => .pyDict d :: normalizeFrom (idx + 1) rest
  | idx, .pyStr s :: rest =>
      .pyDict [("id", .pyStr (toString idx)), ("memory", .pyStr s), ("score", .pyInt 1)]
        :: normalizeFrom (idx + 1) rest
  | idx, _ :: rest => normalizeFrom (idx + 1) rest

/-- `Mem0Service.search`. -/
def search (lib : Mem0Lib) (query : String) (session_id : Option String)
    (user_id : Option Int) (limit : Int) : SearchOutcome :=
  match lib.search query (userIdStr user_id) limit (sessionFilter session_id) with
  | .ok raw =>
      { success := true, error := none
        results := normalizeFrom 0 (extractSearchResults raw) }
  | .error e => { success := false, error := some e, results := [] }

/-- Shape handling in `get_all_user_memories` / `get_session_memories`:
`all_memories.get('results', all_memories.get('memories', []))` for a dict, a
list directly, `[]` otherwise (non-list values under those keys are outside
the modelled shapes). -/
def extractAllResults : PyVal → List PyVal
  | .pyDict d =>
    match dictGet "results" d with
    | some (.pyList l) => l
    | some _ => []
    | none =>
      match dictGet "memories" d with
      | some (.pyList l) => l
      | _ => []
  | .pyList l => l
  | _ => []

/-- Formatting loop of `get_all_user_memories`: dicts pass through, a string
is wrapped with `id = str(len(formatted_memories))` (the current OUTPUT
length, hence the counter only advances on append), others are dropped. -/
def formatAllFrom : Nat → List PyVal → List PyVal
  | _, [] => []
  | n, .pyDict d :: rest => .pyDict d :: formatAllFrom (n + 1) rest
  | n, .pyStr s :: rest =>
      .pyDict [("id", .pyStr (toString n)), ("memory", .pyStr s), ("metadata", .pyDict [])]
        :: formatAllFrom (n + 1) rest
  | n, _ :: rest => formatAllFrom n rest

/-- `Mem0Service.get_all_user_memories` — note the `except` branch returns a
bare `[]`, not a success/error dict. -/
def get_all_user_memories (lib : Mem0Lib) (user_id : Int) (limit : Int) : List PyVal :=
  match lib.getAll (userIdStr (some user_id)) limit with
  | .ok raw => formatAllFrom 0 (extractAllResults raw)
  | .error _ => []

/-- `mem.get("metadata", {}).get("session_id")` for a dict record.  An absent
metadata key defaults to the empty dict; a present non-dict metadata value
would raise in Python and is outside the modelled shapes. -/
def metaSessionId (d : List (String × PyVal)) : Option PyVal :=
  match dictGet "metadata" d with
  | some (.pyDict m) => dictGet "session_id" m
  | _ => none

/-- Filtering loop of `get_session_memories`: a dict is kept iff its metadata
session id equals the requested session, a string is ALWAYS kept, wrapped with
`id = str(len(session_memories))` (output length) and metadata naming the
requested session; other entries are dropped. -/
def filterSessionFrom (session_id : String) : Nat → List PyVal → List PyVal
  | _, [] => []
  | n, .pyDict d :: rest =>
      if metaSessionId d = some (.pyStr session_id)
      then .pyDict d :: filterSessionFrom session_id (n + 1) rest
      else filterSessionFrom session_id n rest
  | n, .pyStr s :: rest =>
      .pyDict [("id", .pyStr (toString n)), ("memory", .pyStr s),
               ("metadata", .pyDict [("session_id", .pyStr session_id)])]
        :: filterSessionFrom session_id (n + 1) rest
  | n, _ :: rest => filterSessionFrom session_id n rest

/-- `Mem0Service.get_session_memories` — the `except` branch returns `[]`. -/
def get_session_memories (lib : Mem0Lib) (session_id : String)
    (user_id : Option Int) (limit : Int) : List PyVal :=
  match lib.getAll (userIdStr user_id) limit with
  | .ok raw => filterSessionFrom session_id 0 (extractAllResults raw)
  | .error _ => []

/-- The delete loop of `delete_session_memories`, returning the number of
deletes that succeeded and the first raised exception (if any); the loop stops
at the first raise.  A non-dict record would raise on `.get` (unreachable:
the pre-fetched set contains only dicts). -/
def runDeletes (lib : Mem0Lib) : List PyVal → Nat × Option String
  | [] => (0, none)
  | mem :: rest =>
    match mem with
    | .pyDict d =>
      match dictGet "id" d with
      | some idv =>
        if pyTruthy idv then
          match lib.delete idv with
          | .ok _ =>
            let r := runDeletes lib rest
            (r.1 + 1, r.2)
          | .error e => (0, some e)
        else runDeletes lib rest
      | none => runDeletes lib rest
    | _ => (0, some "attribute error")

/-- The ids handed to `self.memory.delete`, in call order, stopping after a
raising call (which is itself issued). -/
def deleteCalls (lib : Mem0Lib) : List PyVal → List PyVal
  | [] => []
  | mem :: rest =>
    match mem with
    | .pyDict d =>
      match dictGet "id" d with
      | some idv =>
        if pyTruthy idv then
          idv :: (match lib.delete idv with
                  | .ok _ => deleteCalls lib rest
                  | .error _ => [])
        else deleteCalls lib rest
      | none => deleteCalls lib rest
    | _ => []

/-- `Mem0Service.delete_session_memories`: pre-fetches the session set (with
`get_session_memories`'s default limit 100), deletes record by record, and on
any raise reports `{"success": False, "error": ..., "deleted_count": 0}` —
the local count accumulated before the raise is discarded. -/
def delete_session_memories (lib : Mem0Lib) (session_id : String)
    (user_id : Option Int) : DeleteOutcome :=
  let memories := get_session_memories lib session_id user_id 100
  match runDeletes lib memories with
  | (n, none) => { success := true, error := none, deleted_count := n }
  | (_, some e) => { success := false, error := some e, deleted_count := 0 }

/-- The loop body of `get_context_for_query`: a search result with truthy
`memory` text (`result.get("memory", "")`) becomes
`{"role": "system", "content": "[Relevant Context: <text>]"}`, others yield
nothing.  Search results are dicts by construction of `search`; a non-dict
would raise in Python, caught into the operation's `[]` outcome. -/
def ctxEntry : PyVal → Option CtxMsg
  | .pyDict d =>
    let mc := (dictGet "memory" d).getD (.pyStr "")
    if pyTruthy mc then
      some { role := "system", content := "[Relevant Context: " ++ pyStrOf mc ++ "]" }
    else none
  | _ => none

set_option linter.unusedVariables false in
/-- `Mem0Service.get_context_for_query`: a cross-session search (no session
filter is passed), then each result is mapped through `ctxEntry`.
The `session_id` argument is accepted but unused by the body, exactly as in
the source. -/
def get_context_for_query (lib : Mem0Lib) (query : String) (session_id : String)
    (user_id : Option Int) (max_messages : Int) : List CtxMsg :=
  let sr := search lib query none user_id max_messages
  sr.results.filterMap ctxEntry

/-! ### The lazily initialized service object

`Mem0Service.__init__` sets `self.memory = None` and `self.initialized =
False`; `initialize` is a no-op when already initialized, otherwise it builds
the library handle (`Memory.from_config`, which may raise — modelled by the
`mkLib : Except String Mem0Lib` parameter) and sets the flag.  Every public
operation starts with `if not self.initialized: self.initialize()` OUTSIDE its
`try` block, so an initialization failure propagates to the caller.  The
wrappers below thread the state and pair it with the operation's result. -/

/-- The mutable fields of `Mem0Service`. -/
structure ServiceState where
  memory : Option Mem0Lib
  initialized : Bool

/-- `Mem0Service.initialize`: returns immediately when already initialized;
otherwise constructs the library handle or propagates the construction
failure. -/
def initService (mkLib : Except String Mem0Lib) (s : ServiceState) :
    Except String ServiceState :=
  if s.initialized then .ok s
  else
    match mkLib with
    | .ok lib => .ok { memory := some lib, initialized := true }
    | .error e => .error e

/-- The `if not self.initialized: self.initialize()` prologue shared by every
public operation. -/
def ensureInit (mkLib : Except String Mem0Lib) (s : ServiceState) :
    Except String ServiceState :=
  if s.initialized then .ok s else initService mkLib s

/-- `add_messages` as invoked on the service object (lazy initialization, then
the operation body).  A `None` library handle after initialization cannot
occur through this API; Python would raise `AttributeError` inside the `try`
and return the failure outcome, which is what the `none` branch models. -/
def add_messagesSvc (mkLib : Except String Mem0Lib) (s : ServiceState)
    (messages : List (List (String × PyVal))) (session_id : String)
    (user_id : Option Int) : Except String (ServiceState × AddOutcome) :=
  match ensureInit mkLib s with
  | .error e => .error e
  | .ok s' =>
    match s'.memory with
    | some lib => .ok (s', add_messages lib messages session_id user_id)
    | none => .ok (s', { success := false
                         error := some "NoneType has no attribute add"
                         results := .pyList [] })

/-- `search` as invoked on the service object. -/
def searchSvc (mkLib : Except String Mem0Lib) (s : ServiceState) (query : String)
    (session_id : Option String) (user_id : Option Int) (limit : Int) :
    Except String (ServiceState × SearchOutcome) :=
  match ensureInit mkLib s with
  | .error e => .error e
  | .ok s' =>
    match s'.memory with
    | some lib => .ok (s', search lib query session_id user_id limit)
    | none => .ok (s', { success := false
                         error := some "NoneType has no attribute search"
                         results := [] })

/-- `get_all_user_memories` as invoked on the service object. -/
def get_all_user_memoriesSvc (mkLib : Except String Mem0Lib) (s : ServiceState)
    (user_id : Int) (limit : Int) : Except String (ServiceState × List PyVal) :=
  match ensureInit mkLib s with
  | .error e => .error e
  | .ok s' =>
    match s'.memory with
    | some lib => .ok (s', get_all_user_memories lib user_id limit)
    | none => .ok (s', [])

/-- `get_session_memories` as invoked on the service object. -/
def get_session_memoriesSvc (mkLib : Except String Mem0Lib) (s : ServiceState)
    (session_id : String) (user_id : Option Int) (limit : Int) :
    Except String (ServiceState × List PyVal) :=
  match ensureInit mkLib s with
  | .error e => .error e
  | .ok s' =>
    match s'.memory with
    | some lib => .ok (s', get_session_memories lib session_id user_id limit)
    | none => .ok (s', [])

/-- `delete_session_memories` as invoked on the service object. -/
def delete_session_memoriesSvc (mkLib : Except String Mem0Lib) (s : ServiceState)
    (session_id : String) (user_id : Option Int) :
    Except String (ServiceState × DeleteOutcome) :=
  match ensureInit mkLib s with
  | .error e => .error e
  | .ok s' =>
    match s'.memory with
    | some lib => .ok (s', delete_session_memories lib session_id user_id)
    | none => .ok (s', { success := true, error := none, deleted_count := 0 })

/-- `get_context_for_query` as invoked on the service object. -/
def get_context_for_querySvc (mkLib : Except String Mem0Lib) (s : ServiceState)
    (query session_id : String) (user_id : Option Int) (max_messages : Int) :
    Except String (ServiceState × List CtxMsg) :=
  match ensureInit mkLib s with
  | .error e => .error e
  | .ok s' =>
    match s'.memory with
    | some lib => .ok (s', get_context_for_query lib query session_id user_id max_messages)
    | none => .ok (s', [])

/-! ### Configuration (`config.py`)

The environment is modelled as a partial map from variable names to strings;
availability of the optional `langchain_neo4j` dependency is a boolean
parameter.  `Config.__init__` raises `ValueError` out of `_detect_provider`
or `_get_api_key`; those raises are the `Except.error` branch. -/

/-- `os.getenv(k, d)`. -/
def getenvD (env : String → Option String) (k d : String) : String :=
  (env k).getD d

/-- Python `str.lower()` (ASCII case folding, expressed over the character
list so that it evaluates; the code only compares lowered values against
ASCII literals). -/
def strLower (s : String) : String := ⟨s.data.map Char.toLower⟩

/-- `Config._detect_provider`: the lowered `MEM0_MODELS` value must be
`"openai"` or `"azure"`. -/
def detectProvider (env : String → Option String) : Except String String :=
  let provider := strLower (getenvD env "MEM0_MODELS" "")
  if provider = "openai" ∨ provider = "azure" then .ok provider
  else .error ("MEM0_MODELS must be \x27openai\x27 or \x27azure\x27, got: " ++ provider)

/-- `Config._get_api_key`: the provider-specific key env var must be set and
non-empty (Python tests `if not api_key`, so the empty string also fails). -/
def getApiKey (env : String → Option String) (provider : String) :
    Except String String :=
  if provider = "azure" then
    match env "AZURE_OPENAI_API_KEY" with
    | some k =>
      if k = "" then .error "AZURE_OPENAI_API_KEY is required when MEM0_MODELS=azure"
      else .ok k
    | none => .error "AZURE_OPENAI_API_KEY is required when MEM0_MODELS=azure"
  else
    match env "OPENAI_API_KEY" with
    | some k =>
      if k = "" then .error "OPENAI_API_KEY is required when MEM0_MODELS=openai"
      else .ok k
    | none => .error "OPENAI_API_KEY is required when MEM0_MODELS=openai"

/-- `Config._get_embedding_model`. -/
def getEmbeddingModel (env : String → Option String) (provider : String) : String :=
  if provider = "azure" then
    getenvD env "AZURE_OPENAI_EMBEDDING_DEPLOYMENT" "text-embedding-ada-002"
  else getenvD env "MEM0_EMBEDDING_MODEL" "text-embedding-3-small"

/-- `Config._get_llm_model`. -/
def getLlmModel (env : String → Option String) (provider : String) : String :=
  if provider = "azure" then getenvD env "AZURE_OPENAI_DEPLOYMENT" "gpt-4o"
  else getenvD env "MEM0_LLM_MODEL" "gpt-4o-mini"

/-- The fields `Config.__init__` assigns (restricted to those the claims
touch, plus the model/store selectors it derives without further checks). -/
structure Config where
  provider : String
  api_key : String
  embedding_model : String
  llm_model : String
  vector_store_provider : String
  collection_name : String
  graph_enabled : Bool
  deriving Repr, DecidableEq

/-- `Config.__init__` as a whole: provider detection, credential lookup, the
derived model names, and the graph flag, which is read from
`MEM0_GRAPH_ENABLED` and downgraded to `False` (with only a printed warning)
when `langchain_neo4j` cannot be imported. -/
def mkConfig (env : String → Option String) (neo4jAvailable : Bool) :
    Except String Config :=
  match detectProvider env with
  | .error e => .error e
  | .ok provider =>
    match getApiKey env provider with
    | .error e => .error e
    | .ok key =>
      let graphFlag := strLower (getenvD env "MEM0_GRAPH_ENABLED" "false") == "true"
      .ok { provider := provider
            api_key := key
            embedding_model := getEmbeddingModel env provider
            llm_model := getLlmModel env provider
            vector_store_provider := getenvD env "MEM0_PROVIDER" "qdrant"
            collection_name := getenvD env "MEM0_COLLECTION_NAME" "chatsg_memories"
            graph_enabled := graphFlag && neo4jAvailable }

/-! ### Auxiliary predicates and concrete library instances used by the
theorems below -/

/-- Whether a Python value is a dict. -/
def isPyDict : PyVal → Bool
  | .pyDict _ => true
  | _ => false

/-- Whether a Python value is a string. -/
def isPyStr : PyVal → Bool
  | .pyStr _ => true
  | _ => false

/-- The identifier a pre-fetched record contributes to the delete loop: its
`"id"` value when present and truthy, nothing otherwise. -/
def recId : PyVal → Option PyVal
  | .pyDict d =>
    match dictGet "id" d with
    | some v => if pyTruthy v then some v else none
    | none => none
  | _ => none

/-- Spec-side definition (for comparison with the code): "the subset of a
user's records whose metadata session identifier equals the requested one" —
the set `get_session_memories` is claimed to return exactly. -/
def specSessionSubset (session_id : String) (fetched : List PyVal) : List PyVal :=
  fetched.filter fun m =>
    match m with
    | .pyDict d => decide (metaSessionId d = some (.pyStr session_id))
    | _ => false

/-- A library whose every call succeeds with a trivial value. -/
def okLib : Mem0Lib where
  add _ _ _ := .ok (.pyStr "stored")
  search _ _ _ _ := .ok (.pyList [])
  getAll _ _ := .ok (.pyList [])
  delete _ := .ok ()

/-- A library whose every call raises `"boom"`. -/
def failLib : Mem0Lib where
  add _ _ _ := .error "boom"
  search _ _ _ _ := .error "boom"
  getAll _ _ := .error "boom"
  delete _ := .error "boom"

/-- A library holding one session-`"s1"` record whose delete call raises. -/
def failDelLib : Mem0Lib where
  add _ _ _ := .ok .pyNone
  search _ _ _ _ := .ok (.pyList [])
  getAll _ _ := .ok (.pyList
    [.pyDict [("id", .pyStr "m1"), ("metadata", .pyDict [("session_id", .pyStr "s1")])]])
  delete _ := .error "boom"

/-- A library whose memory set is one plain string. -/
def strRecLib : Mem0Lib where
  add _ _ _ := .ok .pyNone
  search _ _ _ _ := .ok (.pyList [])
  getAll _ _ := .ok (.pyList [.pyStr "note"])
  delete _ := .ok ()

/-- Two dict records in sessions `"s1"` and `"s2"`, plus one `"s1"` record
without an id. -/
def dictRecLib : Mem0Lib where
  add _ _ _ := .ok .pyNone
  search _ _ _ _ := .ok (.pyList [])
  getAll _ _ := .ok (.pyList
    [.pyDict [("id", .pyStr "a"), ("metadata", .pyDict [("session_id", .pyStr "s1")])],
     .pyDict [("id", .pyStr "b"), ("metadata", .pyDict [("session_id", .pyStr "s2")])],
     .pyDict [("metadata", .pyDict [("session_id", .pyStr "s1")])]])
  delete _ := .ok ()

/-- A library whose search yields one mapping record that carries neither an
`"id"` nor a `"memory"` key. -/
def oddDictLib : Mem0Lib where
  add _ _ _ := .ok .pyNone
  search _ _ _ _ := .ok (.pyList [.pyDict [("foo", .pyInt 1)]])
  getAll _ _ := .ok (.pyList [])
  delete _ := .ok ()

/-- A library whose add call echoes the metadata it received, making the
attached metadata observable through the operation's outcome. -/
def echoLib : Mem0Lib where
  add _ _ md := .ok (.pyDict (md.map fun kv => (kv.1, .pyStr kv.2)))
  search _ _ _ _ := .ok (.pyList [])
  getAll _ _ := .ok (.pyList [])
  delete _ := .ok ()

/-- A library whose search returns one memory with empty text and one with no
text at all. -/
def emptyMemLib : Mem0Lib where
  add _ _ _ := .ok .pyNone
  search _ _ _ _ := .ok (.pyList [.pyDict [("memory", .pyStr "")], .pyDict [("id", .pyStr "7")]])
  getAll _ _ := .ok (.pyList [])
  delete _ := .ok ()

/-- A library whose search returns two textual memories, one of them empty. -/
def twoMemLib : Mem0Lib where
  add _ _ _ := .ok .pyNone
  search _ _ _ _ := .ok (.pyList [.pyDict [("memory", .pyStr "hello")], .pyDict [("memory", .pyStr "")]])
  getAll _ _ := .ok (.pyList [])
  delete _ := .ok ()

/-- A library with two deletable `"s1"` records where deleting the second one
raises after the first delete succeeded. -/
def midFailLib : Mem0Lib where
  add _ _ _ := .ok .pyNone
  search _ _ _ _ := .ok (.pyList [])
  getAll _ _ := .ok (.pyList
    [.pyDict [("id", .pyStr "a"), ("metadata", .pyDict [("session_id", .pyStr "s1")])],
     .pyDict [("id", .pyStr "b"), ("metadata", .pyDict [("session_id", .pyStr "s1")])]])
  delete v := if v = .pyStr "b" then .error "boom" else .ok ()

/-- A library whose search yields a mixed bag: a mapping, a plain string, and
a malformed numeric entry. -/
def mixedLib : Mem0Lib where
  add _ _ _ := .ok .pyNone
  search _ _ _ _ := .ok (.pyList [.pyDict [("id", .pyStr "x"), ("memory", .pyStr "alpha")],
                                  .pyStr "beta", .pyInt 7])
  getAll _ _ := .ok (.pyList [])
  delete _ := .ok ()

/-- Spec-side predicate: the provider selector is absent or not one of the
two supported values (after the code's lowering). -/
def providerInvalidB (env : String → Option String) : Bool :=
  !(strLower (getenvD env "MEM0_MODELS" "") == "openai"
    || strLower (getenvD env "MEM0_MODELS" "") == "azure")

/-- Spec-side predicate: the required credential for the chosen provider is
absent (unset or empty). -/
def credentialMissingB (env : String → Option String) : Bool :=
  if strLower (getenvD env "MEM0_MODELS" "") == "azure" then
    match env "AZURE_OPENAI_API_KEY" with
    | some k => k == ""
    | none => true
  else
    match env "OPENAI_API_KEY" with
    | some k => k == ""
    | none => true

/-- An environment selecting the openai provider with a key and the graph
flag switched on. -/
def envGraphOn : String → Option String := fun k =>
  if k = "MEM0_MODELS" then some "openai"
  else if k = "OPENAI_API_KEY" then some "sk-test"
  else if k = "MEM0_GRAPH_ENABLED" then some "true"
  else none

/-- A ready service state holding the trivial library. -/
def readyState : ServiceState := { memory := some okLib, initialized := true }

/-- The freshly constructed (`__init__`) service state. -/
def freshState : ServiceState := { memory := none, initialized := false }

/-! ### Supporting lemmas -/

/-- Every record produced by the session filtering loop is a dict. -/
theorem filterSessionFrom_isPyDict (sid : String) :
    ∀ (n : Nat) (l : List PyVal), ∀ m ∈ filterSessionFrom sid n l, isPyDict m = true := by
  intro n l
  induction l generalizing n with
  | nil => intro m hm; simp [filterSessionFrom] at hm
  | cons hd tl ih =>
    intro m hm
    cases hd with
    | pyDict d =>
      rw [filterSessionFrom] at hm
      by_cases hmatch : metaSessionId d = some (.pyStr sid)
      · rw [if_pos hmatch] at hm
        rcases List.mem_cons.mp hm with h | h
        · subst h; rfl
        · exact ih _ m h
      · rw [if_neg hmatch] at hm
        exact ih _ m hm
    | pyStr s =>
      rw [filterSessionFrom] at hm
      rcases List.mem_cons.mp hm with h | h
      · subst h; rfl
      · exact ih _ m h
    | pyNone => simp only [filterSessionFrom] at hm; exact ih _ m hm
    | pyInt k => simp only [filterSessionFrom] at hm; exact ih _ m hm
    | pyList l2 => simp only [filterSessionFrom] at hm; exact ih _ m hm

/-- On a fetched set made of dicts only, the session filtering loop is
exactly the spec's subset. -/
theorem filterSessionFrom_eq_specSubset (sid : String) :
    ∀ (n : Nat) (l : List PyVal), (∀ m ∈ l, isPyDict m = true) →
      filterSessionFrom sid n l = specSessionSubset sid l := by
  intro n l
  induction l generalizing n with
  | nil => intro _; rfl
  | cons hd tl ih =>
    intro hall
    have htl : ∀ m ∈ tl, isPyDict m = true := fun m hm =>
      hall m (List.mem_cons_of_mem _ hm)
    cases hd with
    | pyDict d =>
      by_cases hmatch : metaSessionId d = some (.pyStr sid)
      · rw [filterSessionFrom, if_pos hmatch, ih _ htl]
        simp [specSessionSubset, List.filter_cons, hmatch]
      · rw [filterSessionFrom, if_neg hmatch, ih _ htl]
        simp [specSessionSubset, List.filter_cons, hmatch]
    | pyStr s => exact absurd (hall _ (List.mem_cons_self _ _)) (by simp [isPyDict])
    | pyNone => exact absurd (hall _ (List.mem_cons_self _ _)) (by simp [isPyDict])
    | pyInt k => exact absurd (hall _ (List.mem_cons_self _ _)) (by simp [isPyDict])
    | pyList l2 => exact absurd (hall _ (List.mem_cons_self _ _)) (by simp [isPyDict])

/-- Every record produced by search normalization is a dict. -/
theorem normalizeFrom_isPyDict :
    ∀ (k : Nat) (l : List PyVal), ∀ m ∈ normalizeFrom k l, isPyDict m = true := by
  intro k l
  induction l generalizing k with
  | nil => intro m hm; simp [normalizeFrom] at hm
  | cons hd tl ih =>
    intro m hm
    cases hd with
    | pyDict d =>
      rw [normalizeFrom] at hm
      rcases List.mem_cons.mp hm with h | h
      · subst h; rfl
      · exact ih _ m h
    | pyStr s =>
      rw [normalizeFrom] at hm
      rcases List.mem_cons.mp hm with h | h
      · subst h; rfl
      · exact ih _ m h
    | pyNone => simp only [normalizeFrom] at hm; exact ih _ m hm
    | pyInt n => simp only [normalizeFrom] at hm; exact ih _ m hm
    | pyList l2 => simp only [normalizeFrom] at hm; exact ih _ m hm

/-- Search normalization keeps exactly the dict and string entries (one
output record per such entry). -/
theorem normalizeFrom_length :
    ∀ (k : Nat) (l : List PyVal),
      (normalizeFrom k l).length = (l.filter fun m => isPyDict m || isPyStr m).length := by
  intro k l
  induction l generalizing k with
  | nil => rfl
  | cons hd tl ih =>
    cases hd with
    | pyDict d => rw [normalizeFrom]; simp [List.filter_cons, isPyDict, isPyStr, ih]
    | pyStr s => rw [normalizeFrom]; simp [List.filter_cons, isPyDict, isPyStr, ih]
    | pyNone => simp only [normalizeFrom]; simp [List.filter_cons, isPyDict, isPyStr, ih]
    | pyInt n => simp only [normalizeFrom]; simp [List.filter_cons, isPyDict, isPyStr, ih]
    | pyList l2 => simp only [normalizeFrom]; simp [List.filter_cons, isPyDict, isPyStr, ih]

/-- On a response made of dicts only, search normalization is the identity. -/
theorem normalizeFrom_dicts :
    ∀ (k : Nat) (l : List PyVal), (∀ m ∈ l, isPyDict m = true) →
      normalizeFrom k l = l := by
  intro k l
  induction l generalizing k with
  | nil => intro _; rfl
  | cons hd tl ih =>
    intro hall
    have htl : ∀ m ∈ tl, isPyDict m = true := fun m hm =>
      hall m (List.mem_cons_of_mem _ hm)
    cases hd with
    | pyDict d => rw [normalizeFrom, ih _ htl]
    | pyStr s => exact absurd (hall _ (List.mem_cons_self _ _)) (by simp [isPyDict])
    | pyNone => exact absurd (hall _ (List.mem_cons_self _ _)) (by simp [isPyDict])
    | pyInt n => exact absurd (hall _ (List.mem_cons_self _ _)) (by simp [isPyDict])
    | pyList l2 => exact absurd (hall _ (List.mem_cons_self _ _)) (by simp [isPyDict])

/-- Each normalized search record is either a library mapping passed through
unchanged or a wrapped string carrying id, text and score keys. -/
theorem normalizeFrom_sound :
    ∀ (k : Nat) (l : List PyVal), ∀ r ∈ normalizeFrom k l,
      ∃ d, r = .pyDict d ∧
        (PyVal.pyDict d ∈ l ∨
          ((dictGet "id" d).isSome ∧ (dictGet "memory" d).isSome ∧
            (dictGet "score" d).isSome)) := by
  intro k l
  induction l generalizing k with
  | nil => intro r hr; simp [normalizeFrom] at hr
  | cons hd tl ih =>
    intro r hr
    cases hd with
    | pyDict d =>
      rw [normalizeFrom] at hr
      rcases List.mem_cons.mp hr with h | h
      · exact ⟨d, h, Or.inl (List.mem_cons_self _ _)⟩
      · rcases ih _ r h with ⟨d', hd', hmem⟩
        exact ⟨d', hd', hmem.imp (List.mem_cons_of_mem _) id⟩
    | pyStr s =>
      rw [normalizeFrom] at hr
      rcases List.mem_cons.mp hr with h | h
      · exact ⟨_, h, Or.inr (by simp [dictGet])⟩
      · rcases ih _ r h with ⟨d', hd', hmem⟩
        exact ⟨d', hd', hmem.imp (List.mem_cons_of_mem _) id⟩
    | pyNone =>
      simp only [normalizeFrom] at hr
      rcases ih _ r hr with ⟨d', hd', hmem⟩
      exact ⟨d', hd', hmem.imp (List.mem_cons_of_mem _) id⟩
    | pyInt n =>
      simp only [normalizeFrom] at hr
      rcases ih _ r hr with ⟨d', hd', hmem⟩
      exact ⟨d', hd', hmem.imp (List.mem_cons_of_mem _) id⟩
    | pyList l2 =>
      simp only [normalizeFrom] at hr
      rcases ih _ r hr with ⟨d', hd', hmem⟩
      exact ⟨d', hd', hmem.imp (List.mem_cons_of_mem _) id⟩

/-- When no delete call raises, the delete loop succeeds and counts exactly
the records with a (truthy) identifier. -/
theorem runDeletes_ok (lib : Mem0Lib) (hok : ∀ v, lib.delete v = .ok ()) :
    ∀ l : List PyVal, (∀ m ∈ l, isPyDict m = true) →
      runDeletes lib l = ((l.filterMap recId).length, none) := by
  intro l
  induction l with
  | nil => intro _; rfl
  | cons hd tl ih =>
    intro hall
    have htl : ∀ m ∈ tl, isPyDict m = true := fun m hm =>
      hall m (List.mem_cons_of_mem _ hm)
    cases hd with
    | pyDict d =>
      rw [runDeletes]
      rcases hid : dictGet "id" d with _ | v
      · simp only [List.filterMap_cons, recId, hid, ih htl]
      · by_cases htr : pyTruthy v = true
        · simp only [htr, if_true, hok v, ih htl, List.filterMap_cons, recId, hid,
            List.length_cons]
        · have htr' : pyTruthy v = false := by
            cases h2 : pyTruthy v
            · rfl
            · exact absurd h2 htr
          simp only [htr', Bool.false_eq_true, if_false, ih htl, List.filterMap_cons,
            recId, hid]
    | pyStr s => exact absurd (hall _ (List.mem_cons_self _ _)) (by simp [isPyDict])
    | pyNone => exact absurd (hall _ (List.mem_cons_self _ _)) (by simp [isPyDict])
    | pyInt n => exact absurd (hall _ (List.mem_cons_self _ _)) (by simp [isPyDict])
    | pyList l2 => exact absurd (hall _ (List.mem_cons_self _ _)) (by simp [isPyDict])

/-- When no delete call raises, the ids handed to the library's delete are
exactly the (truthy) identifiers of the records, in order. -/
theorem deleteCalls_ok (lib : Mem0Lib) (hok : ∀ v, lib.delete v = .ok ()) :
    ∀ l : List PyVal, (∀ m ∈ l, isPyDict m = true) →
      deleteCalls lib l = l.filterMap recId := by
  intro l
  induction l with
  | nil => intro _; rfl
  | cons hd tl ih =>
    intro hall
    have htl : ∀ m ∈ tl, isPyDict m = true := fun m hm =>
      hall m (List.mem_cons_of_mem _ hm)
    cases hd with
    | pyDict d =>
      rw [deleteCalls]
      rcases hid : dictGet "id" d with _ | v
      · simp only [List.filterMap_cons, recId, hid, ih htl]
      · by_cases htr : pyTruthy v = true
        · simp only [htr, if_true, hok v, ih htl, List.filterMap_cons, recId, hid]
        · have htr' : pyTruthy v = false := by
            cases h2 : pyTruthy v
            · rfl
            · exact absurd h2 htr
          simp only [htr', Bool.false_eq_true, if_false, ih htl, List.filterMap_cons,
            recId, hid]
    | pyStr s => exact absurd (hall _ (List.mem_cons_self _ _)) (by simp [isPyDict])
    | pyNone => exact absurd (hall _ (List.mem_cons_self _ _)) (by simp [isPyDict])
    | pyInt n => exact absurd (hall _ (List.mem_cons_self _ _)) (by simp [isPyDict])
    | pyList l2 => exact absurd (hall _ (List.mem_cons_self _ _)) (by simp [isPyDict])

/-- The pre-fetched session set is made of dicts, whatever the library
returned. -/
theorem get_session_memories_isPyDict (lib : Mem0Lib) (sid : String)
    (uid : Option Int) (lim : Int) :
    ∀ m ∈ get_session_memories lib sid uid lim, isPyDict m = true := by
  intro m hm
  rw [get_session_memories] at hm
  rcases h : lib.getAll (userIdStr uid) lim with e | raw
  · rw [h] at hm; simp at hm
  · rw [h] at hm
    exact filterSessionFrom_isPyDict sid 0 _ m hm

/-! ### Claim theorems -/

/-- Claim C9: for every operation taking an optional `user_id`, passing
`user_id = 0` is indistinguishable from passing no `user_id`: both map to the
library user `"default"` (the truthiness test conflates `0` with `None`), and
since the library is universally quantified here, the two runs make identical
library calls and produce identical results. -/
theorem user_id_zero_conflation (lib : Mem0Lib)
    (msgs : List (List (String × PyVal))) (q sid : String) (sidOpt : Option String)
    (lim maxm : Int) :
    userIdStr (some 0) = userIdStr none ∧
    add_messages lib msgs sid (some 0) = add_messages lib msgs sid none ∧
    search lib q sidOpt (some 0) lim = search lib q sidOpt none lim ∧
    get_session_memories lib sid (some 0) lim = get_session_memories lib sid none lim ∧
    delete_session_memories lib sid (some 0) = delete_session_memories lib sid none ∧
    get_context_for_query lib q sid (some 0) maxm
      = get_context_for_query lib q sid none maxm :=
  ⟨rfl, rfl, rfl, rfl, rfl, rfl⟩

/-- Claim C5, counterexample: with `user_id = 0` explicitly given, the
metadata attached to the add call carries `"default"`, not `"0"` — observed
through a library whose add call echoes the metadata it received. -/
theorem add_messages_user_zero_cex :
    add_messages echoLib [] "s1" (some 0)
      = { success := true, error := none
          results := .pyDict [("session_id", .pyStr "s1"), ("user_id", .pyStr "default")] } ∧
    userIdStr (some 0) ≠ toString (0 : Int) := by
  exact ⟨rfl, by decide⟩

/-- Claim C5 (amended): `add_messages` maps role tag `"user"` to `"user"`
and every other message to `"assistant"`, and attaches metadata
`{session_id, user_id}` where the user value is `str(user_id)` for a given
nonzero `user_id` and `"default"` when `user_id` is absent or `0`. -/
theorem add_messages_roles_and_metadata (lib : Mem0Lib)
    (msgs : List (List (String × PyVal))) (sid : String) (uid : Option Int)
    (raw : PyVal)
    (h : lib.add (msgs.map convertMessage) (userIdStr uid)
          [("session_id", sid), ("user_id", userIdStr uid)] = .ok raw) :
    add_messages lib msgs sid uid = { success := true, error := none, results := raw } ∧
    (∀ m ∈ msgs, dictGet "type" m = some (.pyStr "user") → (convertMessage m).role = "user") ∧
    (∀ m ∈ msgs, dictGet "type" m ≠ some (.pyStr "user") →
       (convertMessage m).role = "assistant") ∧
    userIdStr none = "default" ∧
    userIdStr (some 0) = "default" ∧
    (∀ n : Int, n ≠ 0 → userIdStr (some n) = toString n) := by
  refine ⟨?_, ?_, ?_, rfl, rfl, ?_⟩
  · simp only [add_messages, h]
  · intro m _ ht; simp [convertMessage, ht]
  · intro m _ ht; simp [convertMessage, ht]
  · intro n hn; simp [userIdStr, hn]

/-- Claim C5, witness: a `"user"`-typed message for session `"s1"` and user 5
reaches the library with role `"user"` and metadata
`{"session_id": "s1", "user_id": "5"}`. -/
theorem add_messages_roles_and_metadata_witness :
    add_messages echoLib [[("type", PyVal.pyStr "user"), ("content", PyVal.pyStr "Hello")]]
        "s1" (some 5)
      = { success := true, error := none
          results := .pyDict [("session_id", .pyStr "s1"), ("user_id", .pyStr "5")] } ∧
    userIdStr (some 5) = toString (5 : Int) := by
  have h := add_messages_roles_and_metadata echoLib
    [[("type", PyVal.pyStr "user"), ("content", PyVal.pyStr "Hello")]] "s1" (some 5)
    (.pyDict [("session_id", .pyStr "s1"), ("user_id", .pyStr "5")]) rfl
  exact ⟨h.1, h.2.2.2.2.2 5 (by decide)⟩

/-- Claim C4, counterexample: a mapping entry from the library passes through
normalization unchanged, so a returned record can lack both the identifier
and the textual content the claim guarantees. -/
theorem search_uniform_record_cex :
    search oddDictLib "q" none none 10
      = { success := true, error := none, results := [.pyDict [("foo", .pyInt 1)]] } ∧
    dictGet "id" [("foo", .pyInt 1)] = none ∧
    dictGet "memory" [("foo", .pyInt 1)] = none :=
  ⟨rfl, rfl, rfl⟩

/-- Claim C4 (amended): `search` normalizes a mapping-with-results, raw
sequence, or sequence of strings into a sequence of mapping records; string
entries are wrapped with identifier, text, and score keys, mapping entries
pass through unchanged (with no guaranteed fields), and entries that are
neither mapping nor string are silently dropped. -/
theorem search_normalization (lib : Mem0Lib) (q : String) (sidOpt : Option String)
    (uid : Option Int) (lim : Int) (entries : List PyVal)
    (h : lib.search q (userIdStr uid) lim (sessionFilter sidOpt) = .ok (.pyList entries)) :
    search lib q sidOpt uid lim
      = { success := true, error := none, results := normalizeFrom 0 entries } ∧
    (∀ m ∈ normalizeFrom 0 entries, isPyDict m = true) ∧
    (normalizeFrom 0 entries).length
      = (entries.filter fun m => isPyDict m || isPyStr m).length ∧
    ((∀ m ∈ entries, isPyDict m = true) → normalizeFrom 0 entries = entries) ∧
    (∀ r ∈ normalizeFrom 0 entries, ∃ d, r = .pyDict d ∧
       (PyVal.pyDict d ∈ entries ∨
         ((dictGet "id" d).isSome ∧ (dictGet "memory" d).isSome ∧
           (dictGet "score" d).isSome))) ∧
    (∀ lib2 : Mem0Lib,
       lib2.search q (userIdStr uid) lim (sessionFilter sidOpt)
         = .ok (.pyDict [("results", .pyList entries)]) →
       search lib2 q sidOpt uid lim = search lib q sidOpt uid lim) := by
  have hmain : search lib q sidOpt uid lim
      = { success := true, error := none, results := normalizeFrom 0 entries } := by
    simp only [search, h, extractSearchResults]
  refine ⟨hmain, normalizeFrom_isPyDict 0 entries, normalizeFrom_length 0 entries,
    normalizeFrom_dicts 0 entries, normalizeFrom_sound 0 entries, ?_⟩
  intro lib2 h2
  rw [hmain]
  simp only [search, h2, extractSearchResults, dictGet]
  simp

/-- Claim C4, witness: a mixed response (mapping, plain string, number) is
normalized into two mapping records: the mapping unchanged and the string
wrapped with its input index as identifier; the number is dropped. -/
theorem search_normalization_witness :
    search mixedLib "q" none none 10
      = { success := true, error := none
          results := [.pyDict [("id", .pyStr "x"), ("memory", .pyStr "alpha")],
                      .pyDict [("id", .pyStr "1"), ("memory", .pyStr "beta"),
                               ("score", .pyInt 1)]] } := by
  have h := search_normalization mixedLib "q" none none 10
    [.pyDict [("id", .pyStr "x"), ("memory", .pyStr "alpha")], .pyStr "beta", .pyInt 7] rfl
  rw [h.1]
  rfl

/-- Claim C2, counterexample: a plain-string record in the fetched set is
always included (wrapped with the requested session id), although the set of
fetched records whose metadata session identifier equals `"s1"` is empty —
so the output is not exactly that set. -/
theorem get_session_memories_exact_cex :
    specSessionSubset "s1" (extractAllResults (.pyList [.pyStr "note"])) = [] ∧
    get_session_memories strRecLib "s1" none 100
      = [.pyDict [("id", .pyStr "0"), ("memory", .pyStr "note"),
                  ("metadata", .pyDict [("session_id", .pyStr "s1")])]] :=
  ⟨rfl, rfl⟩

/-- Claim C2 (amended): when every fetched record is a mapping,
`get_session_memories` returns exactly those fetched records whose metadata
session identifier equals the requested one (fetched plain-string records,
outside this hypothesis, are unconditionally included after wrapping). -/
theorem get_session_memories_exact_on_mappings (lib : Mem0Lib) (sid : String)
    (uid : Option Int) (lim : Int) (raw : PyVal)
    (h : lib.getAll (userIdStr uid) lim = .ok raw)
    (hd : ∀ m ∈ extractAllResults raw, isPyDict m = true) :
    get_session_memories lib sid uid lim = specSessionSubset sid (extractAllResults raw) := by
  simp only [get_session_memories, h]
  exact filterSessionFrom_eq_specSubset sid 0 _ hd

/-- Claim C2, witness: of three mapping records (sessions `"s1"`, `"s2"`,
`"s1"`), exactly the two `"s1"` records are returned. -/
theorem get_session_memories_exact_on_mappings_witness :
    get_session_memories dictRecLib "s1" none 100
      = specSessionSubset "s1" (extractAllResults (.pyList
          [.pyDict [("id", .pyStr "a"), ("metadata", .pyDict [("session_id", .pyStr "s1")])],
           .pyDict [("id", .pyStr "b"), ("metadata", .pyDict [("session_id", .pyStr "s2")])],
           .pyDict [("metadata", .pyDict [("session_id", .pyStr "s1")])]])) ∧
    get_session_memories dictRecLib "s1" none 100
      = [.pyDict [("id", .pyStr "a"), ("metadata", .pyDict [("session_id", .pyStr "s1")])],
         .pyDict [("metadata", .pyDict [("session_id", .pyStr "s1")])]] := by
  have h := get_session_memories_exact_on_mappings dictRecLib "s1" none 100
    (.pyList
      [.pyDict [("id", .pyStr "a"), ("metadata", .pyDict [("session_id", .pyStr "s1")])],
       .pyDict [("id", .pyStr "b"), ("metadata", .pyDict [("session_id", .pyStr "s2")])],
       .pyDict [("metadata", .pyDict [("session_id", .pyStr "s1")])]])
    rfl (by decide)
  exact ⟨h, by rw [h]; rfl⟩

/-- Claim C3: when the underlying deletes succeed, `delete_session_memories`
issues exactly one delete call per pre-fetched session record with a (truthy)
identifier — in order, none for identifier-less records — and reports a
`deleted_count` equal to the number of delete calls issued. -/
theorem delete_session_memories_delete_calls (lib : Mem0Lib) (sid : String)
    (uid : Option Int) (hok : ∀ v, lib.delete v = .ok ()) :
    deleteCalls lib (get_session_memories lib sid uid 100)
      = (get_session_memories lib sid uid 100).filterMap recId ∧
    delete_session_memories lib sid uid
      = { success := true, error := none
          deleted_count := ((get_session_memories lib sid uid 100).filterMap recId).length } := by
  have hd := get_session_memories_isPyDict lib sid uid 100
  refine ⟨deleteCalls_ok lib hok _ hd, ?_⟩
  rw [delete_session_memories]
  simp only [runDeletes_ok lib hok _ hd]

/-- Claim C3, witness: of two pre-fetched `"s1"` records, one with id `"a"`
and one without an id, a single delete call (for `"a"`) is issued and the
reported count is 1. -/
theorem delete_session_memories_delete_calls_witness :
    deleteCalls dictRecLib (get_session_memories dictRecLib "s1" none 100)
      = [.pyStr "a"] ∧
    delete_session_memories dictRecLib "s1" none
      = { success := true, error := none, deleted_count := 1 } := by
  have h := delete_session_memories_delete_calls dictRecLib "s1" none (fun _ => rfl)
  exact ⟨by rw [h.1]; rfl, by rw [h.2]; rfl⟩

/-- Claim C10: when a delete call raises mid-loop, the outcome is
`{success: false, error, deleted_count: 0}`, so the reported count
under-reports the deletes already performed before the failure. -/
theorem delete_session_memories_not_atomic (lib : Mem0Lib) (sid : String)
    (uid : Option Int) (e : String)
    (he : (runDeletes lib (get_session_memories lib sid uid 100)).2 = some e)
    (hpos : 0 < (runDeletes lib (get_session_memories lib sid uid 100)).1) :
    delete_session_memories lib sid uid
      = { success := false, error := some e, deleted_count := 0 } ∧
    (delete_session_memories lib sid uid).deleted_count
      < (runDeletes lib (get_session_memories lib sid uid 100)).1 := by
  have hmain : delete_session_memories lib sid uid
      = { success := false, error := some e, deleted_count := 0 } := by
    rw [delete_session_memories]
    rcases hr : runDeletes lib (get_session_memories lib sid uid 100) with ⟨n, err⟩
    rw [hr] at he
    simp only at he
    subst he
    rfl
  exact ⟨hmain, by rw [hmain]; exact hpos⟩

/-- Claim C10, witness: two deletable `"s1"` records; the first delete
succeeds, the second raises — one delete was performed, yet the outcome is
`{success: false, deleted_count: 0}`. -/
theorem delete_session_memories_not_atomic_witness :
    delete_session_memories midFailLib "s1" none
      = { success := false, error := some "boom", deleted_count := 0 } ∧
    (runDeletes midFailLib (get_session_memories midFailLib "s1" none 100)).1 = 1 := by
  have h := delete_session_memories_not_atomic midFailLib "s1" none "boom"
    (by decide) (by decide)
  exact ⟨h.1, by decide⟩

/-- Claim C8, counterexample: the library search returns two memories, but a
memory with empty (or missing) text produces no context entry, so not every
returned memory yields one. -/
theorem get_context_for_query_cex :
    (search emptyMemLib "q" none none 50).results.length = 2 ∧
    get_context_for_query emptyMemLib "q" "s1" none 50 = [] :=
  ⟨rfl, rfl⟩

/-- The context entries produced from a list of textual memories: one
system-role wrapped entry per non-empty text. -/
theorem ctxEntry_texts (ts : List String) :
    (ts.map fun t => PyVal.pyDict [("memory", PyVal.pyStr t)]).filterMap ctxEntry
      = (ts.filter fun t => t != "").map
          (fun t => { role := "system", content := "[Relevant Context: " ++ t ++ "]" }) := by
  induction ts with
  | nil => rfl
  | cons t rest ih =>
    simp only [List.map_cons, List.filterMap_cons, List.filter_cons]
    by_cases ht : t = ""
    · subst ht
      simpa [ctxEntry, dictGet, pyTruthy] using ih
    · have ht' : (t != "") = true := by simpa using ht
      have hentry : ctxEntry (PyVal.pyDict [("memory", PyVal.pyStr t)])
          = some { role := "system", content := "[Relevant Context: " ++ t ++ "]" } := by
        simp [ctxEntry, dictGet, pyTruthy, pyStrOf, ht]
      simp only [ht', if_true, hentry, List.map_cons]
      rw [ih]

/-- Claim C8 (amended): `get_context_for_query` searches scoped to the user
with no session filter, and each returned memory whose text is non-empty
becomes a context entry with role `"system"` and content exactly
`"[Relevant Context: <text>]"`; memories with empty text are skipped. -/
theorem get_context_for_query_spec (lib : Mem0Lib) (q sid : String)
    (uid : Option Int) (maxm : Int) (ts : List String)
    (h : lib.search q (userIdStr uid) maxm none
          = .ok (.pyList (ts.map fun t => .pyDict [("memory", .pyStr t)]))) :
    get_context_for_query lib q sid uid maxm
      = (ts.filter fun t => t != "").map
          (fun t => { role := "system", content := "[Relevant Context: " ++ t ++ "]" }) ∧
    (∀ c ∈ get_context_for_query lib q sid uid maxm, c.role = "system") := by
  have hdicts : ∀ m ∈ ts.map fun t => PyVal.pyDict [("memory", PyVal.pyStr t)],
      isPyDict m = true := by
    intro m hm
    rcases List.mem_map.mp hm with ⟨t, _, rfl⟩
    rfl
  have hres : search lib q none uid maxm
      = { success := true, error := none
          results := ts.map fun t => PyVal.pyDict [("memory", PyVal.pyStr t)] } := by
    simp only [search, sessionFilter, h, extractSearchResults]
    rw [normalizeFrom_dicts 0 _ hdicts]
  have hmain : get_context_for_query lib q sid uid maxm
      = (ts.filter fun t => t != "").map
          (fun t => { role := "system", content := "[Relevant Context: " ++ t ++ "]" }) := by
    rw [get_context_for_query, hres]
    exact ctxEntry_texts ts
  refine ⟨hmain, ?_⟩
  intro c hc
  rw [hmain] at hc
  rcases List.mem_map.mp hc with ⟨t, _, rfl⟩
  rfl

/-- Claim C8, witness: memories `"hello"` and `""` yield exactly one context
entry, the system-role wrapping of `"hello"`. -/
theorem get_context_for_query_spec_witness :
    get_context_for_query twoMemLib "q" "s1" none 50
      = [{ role := "system", content := "[Relevant Context: hello]" }] := by
  have h := get_context_for_query_spec twoMemLib "q" "s1" none 50 ["hello", ""] rfl
  rw [h.1]
  rfl

/-- Claim C1, counterexample: on a library whose every call raises,
`get_session_memories`, `get_all_user_memories` and `get_context_for_query`
return a bare empty sequence with no success flag or error message, and
`delete_session_memories` even reports `{success: true, deleted_count: 0}`
when the fetch raises — not the uniform `{success: false, error}` outcome the
claim states for every operation. -/
theorem ops_error_outcome_cex :
    get_session_memories failLib "s1" (some 1) 100 = [] ∧
    get_all_user_memories failLib 1 1000 = [] ∧
    get_context_for_query failLib "q" "s1" (some 1) 50 = [] ∧
    delete_session_memories failLib "s1" (some 1)
      = { success := true, error := none, deleted_count := 0 } :=
  ⟨rfl, rfl, rfl, rfl⟩

/-- Claim C1 (amended): no operation propagates a library exception.
`add_messages` and `search` convert it into
`{success: false, error, results: []}`; the sequence-returning operations
(`get_session_memories`, `get_all_user_memories`, `get_context_for_query`)
convert it into the bare empty sequence with no error indication;
`delete_session_memories` reports `{success: false, error,
deleted_count: 0}` when a delete call raises, but `{success: true,
deleted_count: 0}` when the pre-fetch raises (that exception is swallowed by
the nested fetch). -/
theorem ops_error_containment (lib lib2 : Mem0Lib) (e : String)
    (hAdd : ∀ ms u md, lib.add ms u md = .error e)
    (hSearch : ∀ q u l f, lib.search q u l f = .error e)
    (hGetAll : ∀ u l, lib.getAll u l = .error e)
    (msgs : List (List (String × PyVal))) (q sid : String) (sidOpt : Option String)
    (uid : Option Int) (uidR lim maxm : Int)
    (hGetAll2 : lib2.getAll (userIdStr uid) 100
       = .ok (.pyList [.pyDict [("id", .pyStr "m1"),
                                ("metadata", .pyDict [("session_id", .pyStr sid)])]]))
    (hDel2 : lib2.delete (.pyStr "m1") = .error e) :
    add_messages lib msgs sid uid
      = { success := false, error := some e, results := .pyList [] } ∧
    search lib q sidOpt uid lim
      = { success := false, error := some e, results := [] } ∧
    get_session_memories lib sid uid lim = [] ∧
    get_all_user_memories lib uidR lim = [] ∧
    get_context_for_query lib q sid uid maxm = [] ∧
    delete_session_memories lib sid uid
      = { success := true, error := none, deleted_count := 0 } ∧
    delete_session_memories lib2 sid uid
      = { success := false, error := some e, deleted_count := 0 } := by
  have hsess : get_session_memories lib sid uid lim = [] := by
    simp only [get_session_memories, hGetAll]
  have hsess100 : get_session_memories lib sid uid 100 = [] := by
    simp only [get_session_memories, hGetAll]
  have hsess2 : get_session_memories lib2 sid uid 100
      = [.pyDict [("id", .pyStr "m1"),
                  ("metadata", .pyDict [("session_id", .pyStr sid)])]] := by
    simp only [get_session_memories, hGetAll2, extractAllResults]
    simp [filterSessionFrom, metaSessionId, dictGet]
  refine ⟨?_, ?_, hsess, ?_, ?_, ?_, ?_⟩
  · simp only [add_messages, hAdd]
  · simp only [search, hSearch]
  · simp only [get_all_user_memories, hGetAll]
  · simp only [get_context_for_query, search, hSearch]
    rfl
  · rw [delete_session_memories]
    simp only [hsess100]
    rfl
  · rw [delete_session_memories]
    simp only [hsess2]
    simp [runDeletes, dictGet, pyTruthy, hDel2]

/-- Claim C1, witness: the containment shapes at a concrete all-raising
library and a concrete library whose delete raises after a successful
fetch. -/
theorem ops_error_containment_witness :
    add_messages failLib [] "s1" none
      = { success := false, error := some "boom", results := .pyList [] } ∧
    search failLib "q" none none 10
      = { success := false, error := some "boom", results := [] } ∧
    get_session_memories failLib "s1" none 10 = [] ∧
    delete_session_memories failDelLib "s1" none
      = { success := false, error := some "boom", deleted_count := 0 } := by
  have h := ops_error_containment failLib failDelLib "boom"
    (fun _ _ _ => rfl) (fun _ _ _ _ => rfl) (fun _ _ => rfl)
    [] "q" "s1" none none 1 10 50 rfl rfl
  exact ⟨h.1, h.2.1, h.2.2.1, h.2.2.2.2.2.2⟩

/-- Claim C6: `initialize` is idempotent (a call in the ready state returns
the state unchanged — same handle, same flag), and every public operation
invoked on a not-yet-initialized service runs initialization first and only
then delegates (so an initialization failure propagates out of the
operation). -/
theorem initService_idempotent_and_lazy (mkLib : Except String Mem0Lib)
    (s : ServiceState) (msgs : List (List (String × PyVal))) (q sid : String)
    (sidOpt : Option String) (uid : Option Int) (uidR lim maxm : Int)
    (hs : s.initialized = false) :
    (∀ s2 : ServiceState, s2.initialized = true → initService mkLib s2 = .ok s2) ∧
    add_messagesSvc mkLib s msgs sid uid
      = (initService mkLib s).bind (fun s2 => add_messagesSvc mkLib s2 msgs sid uid) ∧
    searchSvc mkLib s q sidOpt uid lim
      = (initService mkLib s).bind (fun s2 => searchSvc mkLib s2 q sidOpt uid lim) ∧
    get_all_user_memoriesSvc mkLib s uidR lim
      = (initService mkLib s).bind (fun s2 => get_all_user_memoriesSvc mkLib s2 uidR lim) ∧
    get_session_memoriesSvc mkLib s sid uid lim
      = (initService mkLib s).bind (fun s2 => get_session_memoriesSvc mkLib s2 sid uid lim) ∧
    delete_session_memoriesSvc mkLib s sid uid
      = (initService mkLib s).bind (fun s2 => delete_session_memoriesSvc mkLib s2 sid uid) ∧
    get_context_for_querySvc mkLib s q sid uid maxm
      = (initService mkLib s).bind (fun s2 => get_context_for_querySvc mkLib s2 q sid uid maxm) ∧
    (∀ e2 : String, mkLib = .error e2 →
       add_messagesSvc mkLib s msgs sid uid = .error e2) := by
  refine ⟨fun s2 h2 => by simp [initService, h2], ?_⟩
  rcases mkLib with e | lib
  · refine ⟨?_, ?_, ?_, ?_, ?_, ?_, ?_⟩ <;>
      simp [add_messagesSvc, searchSvc, get_all_user_memoriesSvc, get_session_memoriesSvc,
        delete_session_memoriesSvc, get_context_for_querySvc, ensureInit, initService, hs,
        Except.bind]
  · refine ⟨?_, ?_, ?_, ?_, ?_, ?_, ?_⟩ <;>
      simp [add_messagesSvc, searchSvc, get_all_user_memoriesSvc, get_session_memoriesSvc,
        delete_session_memoriesSvc, get_context_for_querySvc, ensureInit, initService, hs,
        Except.bind]

/-- Claim C6, witness: a ready service is unchanged by `initialize`, and an
operation on a fresh service with a failing initializer propagates the
initialization error. -/
theorem initService_idempotent_and_lazy_witness :
    initService (.ok okLib) readyState = .ok readyState ∧
    add_messagesSvc (.error "init failed") freshState [] "s1" none
      = .error "init failed" := by
  refine ⟨?_, ?_⟩
  · exact (initService_idempotent_and_lazy (.ok okLib) freshState [] "q" "s1" none none
      0 10 50 rfl).1 readyState rfl
  · exact (initService_idempotent_and_lazy (.error "init failed") freshState [] "q" "s1"
      none none 0 10 50 rfl).2.2.2.2.2.2.2 "init failed" rfl

/-- A provider-detection failure makes the whole construction fail. -/
theorem mkConfig_provider_error (env : String → Option String) (avail : Bool)
    (e : String) (h : detectProvider env = .error e) :
    mkConfig env avail = .error e := by
  simp only [mkConfig, h]

/-- A credential-lookup failure makes the whole construction fail. -/
theorem mkConfig_key_error (env : String → Option String) (avail : Bool)
    (p e : String) (hp : detectProvider env = .ok p)
    (hk : getApiKey env p = .error e) :
    mkConfig env avail = .error e := by
  simp only [mkConfig, hp, hk]

/-- The constructed configuration when provider and credential resolve. -/
theorem mkConfig_ok (env : String → Option String) (avail : Bool) (p k : String)
    (hp : detectProvider env = .ok p) (hk : getApiKey env p = .ok k) :
    mkConfig env avail
      = .ok { provider := p, api_key := k
              embedding_model := getEmbeddingModel env p
              llm_model := getLlmModel env p
              vector_store_provider := getenvD env "MEM0_PROVIDER" "qdrant"
              collection_name := getenvD env "MEM0_COLLECTION_NAME" "chatsg_memories"
              graph_enabled :=
                (strLower (getenvD env "MEM0_GRAPH_ENABLED" "false") == "true") && avail } := by
  simp only [mkConfig, hp, hk]

/-- Claim C7: configuration construction fails exactly when the provider
selector is absent/unrecognized or the chosen provider's credential is
absent; the graph feature flag never affects success — when set while the
graph dependency is unavailable it is downgraded to disabled. -/
theorem config_validation (env : String → Option String) (avail : Bool) :
    ((mkConfig env avail).isOk = true
       ↔ (providerInvalidB env = false ∧ credentialMissingB env = false)) ∧
    (∀ c : Config, mkConfig env avail = .ok c →
       c.graph_enabled
         = ((strLower (getenvD env "MEM0_GRAPH_ENABLED" "false") == "true") && avail)) ∧
    ((mkConfig env true).isOk = (mkConfig env false).isOk) ∧
    (∀ c : Config, mkConfig env false = .ok c → c.graph_enabled = false) := by
  by_cases hv : (strLower (getenvD env "MEM0_MODELS" "") = "openai"
      ∨ strLower (getenvD env "MEM0_MODELS" "") = "azure")
  · have hd : detectProvider env = .ok (strLower (getenvD env "MEM0_MODELS" "")) := by
      simp only [detectProvider, if_pos hv]
    have hpi : providerInvalidB env = false := by
      rcases hv with h | h <;> simp [providerInvalidB, h]
    by_cases ha : strLower (getenvD env "MEM0_MODELS" "") = "azure"
    · rcases hk : env "AZURE_OPENAI_API_KEY" with _ | k
      · have hak : getApiKey env (strLower (getenvD env "MEM0_MODELS" ""))
            = .error "AZURE_OPENAI_API_KEY is required when MEM0_MODELS=azure" := by
          rw [getApiKey, if_pos ha, hk]
        have hcm : credentialMissingB env = true := by
          simp [credentialMissingB, ha, hk]
        have hma : ∀ b : Bool, mkConfig env b
            = .error "AZURE_OPENAI_API_KEY is required when MEM0_MODELS=azure" :=
          fun b => mkConfig_key_error env b _ _ hd hak
        refine ⟨by simp [Except.isOk, Except.toBool, hma avail, hcm], ?_, by simp [Except.isOk, Except.toBool, hma true, hma false], ?_⟩
        · intro c hc; rw [hma avail] at hc; cases hc
        · intro c hc; rw [hma false] at hc; cases hc
      · by_cases hke : k = ""
        · subst hke
          have hak : getApiKey env (strLower (getenvD env "MEM0_MODELS" ""))
              = .error "AZURE_OPENAI_API_KEY is required when MEM0_MODELS=azure" := by
            rw [getApiKey, if_pos ha, hk]; rfl
          have hcm : credentialMissingB env = true := by
            simp [credentialMissingB, ha, hk]
          have hma : ∀ b : Bool, mkConfig env b
              = .error "AZURE_OPENAI_API_KEY is required when MEM0_MODELS=azure" :=
            fun b => mkConfig_key_error env b _ _ hd hak
          refine ⟨by simp [Except.isOk, Except.toBool, hma avail, hcm], ?_, by simp [Except.isOk, Except.toBool, hma true, hma false], ?_⟩
          · intro c hc; rw [hma avail] at hc; cases hc
          · intro c hc; rw [hma false] at hc; cases hc
        · have hak : getApiKey env (strLower (getenvD env "MEM0_MODELS" "")) = .ok k := by
            rw [getApiKey, if_pos ha, hk]; simp [hke]
          have hcm : credentialMissingB env = false := by
            simp [credentialMissingB, ha, hk, hke]
          have hok : ∀ b : Bool, mkConfig env b = .ok _ :=
            fun b => mkConfig_ok env b _ k hd hak
          refine ⟨by simp [Except.isOk, Except.toBool, hok avail, hpi, hcm], ?_, by simp [Except.isOk, Except.toBool, hok true, hok false], ?_⟩
          · intro c hc; rw [hok avail] at hc; cases hc; rfl
          · intro c hc; rw [hok false] at hc; cases hc; simp
    · rcases hk : env "OPENAI_API_KEY" with _ | k
      · have hak : getApiKey env (strLower (getenvD env "MEM0_MODELS" ""))
            = .error "OPENAI_API_KEY is required when MEM0_MODELS=openai" := by
          rw [getApiKey, if_neg ha, hk]
        have hcm : credentialMissingB env = true := by
          simp [credentialMissingB, ha, hk]
        have hma : ∀ b : Bool, mkConfig env b
            = .error "OPENAI_API_KEY is required when MEM0_MODELS=openai" :=
          fun b => mkConfig_key_error env b _ _ hd hak
        refine ⟨by simp [Except.isOk, Except.toBool, hma avail, hcm], ?_, by simp [Except.isOk, Except.toBool, hma true, hma false], ?_⟩
        · intro c hc; rw [hma avail] at hc; cases hc
        · intro c hc; rw [hma false] at hc; cases hc
      · by_cases hke : k = ""
        · subst hke
          have hak : getApiKey env (strLower (getenvD env "MEM0_MODELS" ""))
              = .error "OPENAI_API_KEY is required when MEM0_MODELS=openai" := by
            rw [getApiKey, if_neg ha, hk]; rfl
          have hcm : credentialMissingB env = true := by
            simp [credentialMissingB, ha, hk]
          have hma : ∀ b : Bool, mkConfig env b
              = .error "OPENAI_API_KEY is required when MEM0_MODELS=openai" :=
            fun b => mkConfig_key_error env b _ _ hd hak
          refine ⟨by simp [Except.isOk, Except.toBool, hma avail, hcm], ?_, by simp [Except.isOk, Except.toBool, hma true, hma false], ?_⟩
          · intro c hc; rw [hma avail] at hc; cases hc
          · intro c hc; rw [hma false] at hc; cases hc
        · have hak : getApiKey env (strLower (getenvD env "MEM0_MODELS" "")) = .ok k := by
            rw [getApiKey, if_neg ha, hk]; simp [hke]
          have hcm : credentialMissingB env = false := by
            simp [credentialMissingB, ha, hk, hke]
          have hok : ∀ b : Bool, mkConfig env b = .ok _ :=
            fun b => mkConfig_ok env b _ k hd hak
          refine ⟨by simp [Except.isOk, Except.toBool, hok avail, hpi, hcm], ?_, by simp [Except.isOk, Except.toBool, hok true, hok false], ?_⟩
          · intro c hc; rw [hok avail] at hc; cases hc; rfl
          · intro c hc; rw [hok false] at hc; cases hc; simp
  · have hd : detectProvider env
        = .error ("MEM0_MODELS must be \x27openai\x27 or \x27azure\x27, got: "
            ++ strLower (getenvD env "MEM0_MODELS" "")) := by
      simp only [detectProvider, if_neg hv]
    have h1 : strLower (getenvD env "MEM0_MODELS" "") ≠ "openai" := fun h => hv (Or.inl h)
    have h2 : strLower (getenvD env "MEM0_MODELS" "") ≠ "azure" := fun h => hv (Or.inr h)
    have hpi : providerInvalidB env = true := by
      simp [providerInvalidB, h1, h2]
    have hma : ∀ b : Bool, mkConfig env b
        = .error ("MEM0_MODELS must be \x27openai\x27 or \x27azure\x27, got: "
            ++ strLower (getenvD env "MEM0_MODELS" "")) :=
      fun b => mkConfig_provider_error env b _ hd
    refine ⟨by simp [Except.isOk, Except.toBool, hma avail, hpi], ?_, by simp [Except.isOk, Except.toBool, hma true, hma false], ?_⟩
    · intro c hc; rw [hma avail] at hc; cases hc
    · intro c hc; rw [hma false] at hc; cases hc

/-- Claim C7, witness: with the openai provider selected, a key present and
the graph flag set, construction succeeds even without the graph dependency,
and the resulting flag is downgraded to disabled. -/
theorem config_validation_witness :
    (mkConfig envGraphOn false).isOk = true ∧
    (mkConfig envGraphOn false).map Config.graph_enabled = .ok false := by
  have h := config_validation envGraphOn false
  have hpc : providerInvalidB envGraphOn = false ∧ credentialMissingB envGraphOn = false := by
    decide
  refine ⟨h.1.mpr hpc, ?_⟩
  rcases hmk : mkConfig envGraphOn false with e | c
  · have hok := h.1.mpr hpc
    rw [hmk] at hok
    cases hok
  · have hg := h.2.2.2 c hmk
    simp [Except.map, hg]

end ChatSG
